import Mathlib

/-!
Verification of the phone-number input widget
(`src/client/django-formset/PhoneNumber.ts`, class `PhoneNumberField`).

The widget is shallowly embedded: the `AsYouType` formatter from
`libphonenumber-js` is an external collaborator, modelled as a structure of
pure functions of the accumulated input string (the formatter is reset and
re-fed from scratch on every edit, so its observable state is exactly the
string fed since the last `reset()`).  DOM state that the claims mention
(edit-field text, selection offset, the hidden host input value, the flag
decoration, the `selected` list item of the country selector, the
`autoUpdate` cleanup handle) is carried in an explicit `Widget` record.
-/

namespace PhoneNumber

/-- External collaborator contract of `AsYouType` (libphonenumber-js),
as a family of pure functions of the accumulated input since `reset()`:
`format s` is the display string returned by feeding `s`; `numberValue s`
models `getNumberValue()`; `country s` models `getCountry()`;
`natNumber s` models `getNumber()?.nationalNumber`; `valid s` models
`isValid()`; `numType s` models `getNumber()?.getType()`. -/
structure Formatter where
  format : String → String
  numberValue : String → Option String
  country : String → Option String
  natNumber : String → Option String
  valid : String → Bool
  numType : String → Option String

/-- Per-instance configuration read from the attributes of the host element:
`default-country-code`, `mobile-only`, and the locale-sorted country
catalog (entries are `(regionCode, callingCode)` pairs, one per region). -/
structure Config where
  defaultCountryCode : Option String
  mobileOnly : Bool
  catalog : List (String × String)

/-- The mutable state of the widget: `displayText` is `editField.innerText`,
`caretOffset` the selection offset inside the edit field, `hostValue` the
hidden `inputElement.value`, `region` the flag shown by
`decorateInputField`, `isPristine` and `isOpen` the two boolean flags,
`accumulated` the input fed to `asYouType` since its last `reset()`,
`highlighted` the index of the `li.selected` entry of the country selector,
`cleanup` the currently stored `autoUpdate` teardown handle (a token),
`acquired` the number of `autoUpdate` subscriptions created so far, and
`released` the list of tokens on which the stored cleanup has been
invoked (one list element per invocation). -/
structure Widget where
  displayText : String
  caretOffset : Nat
  hostValue : String
  region : Option String
  isPristine : Bool
  isOpen : Bool
  accumulated : String
  highlighted : Option Nat
  cleanup : Option Nat
  acquired : Nat
  released : List Nat
  deriving Repr, DecidableEq

/-- The freshly constructed widget before any value is loaded. -/
def emptyWidget : Widget :=
  { displayText := "", caretOffset := 0, hostValue := "", region := none,
    isPristine := true, isOpen := false, accumulated := "",
    highlighted := none, cleanup := none, acquired := 0, released := [] }

/-- Method `decorateInputField`: shows the flag for `countryCode`,
or clears it. -/
def decorateInputField (w : Widget) (countryCode : Option String) : Widget :=
  { w with region := countryCode }

/-- The JS string method `startsWith`, expressed on the underlying
character lists: `beginsWith s p` holds when `p` is a leading substring
of `s`. -/
def beginsWith (s p : String) : Bool := p.data.isPrefixOf s.data

/-- Method `updateInputField` (source lines 249-276).  `phoneNumber`
is the argument of the handler; `w.displayText` is what `editField.innerText`
holds on entry and `w.caretOffset` the selection offset read at line 262.
Steps: reset the formatter; on the one-time pristine transition (no default
country and pristine) clear the flag, and unless the text starts with "+",
replace a text starting with "0" by the empty string, feed "+" and move the
caret to the end; then bias the caret right by one when it sits at the
length of the current text, feed `phoneNumber`, clamp the caret to the new text,
push the number value (or the empty string when there is none) to the host field and refresh the flag. -/
def updateInputField (cfg : Config) (fmt : Formatter) (w0 : Widget)
    (phoneNumber0 : String) : Widget :=
  let w1 := { w0 with accumulated := "" }
  let step2 : Widget × String :=
    if cfg.defaultCountryCode = none ∧ w1.isPristine then
      let w2 := { w1 with isPristine := false }
      if beginsWith phoneNumber0 "+" then (w2, phoneNumber0)
      else
        let pn := if beginsWith phoneNumber0 "0" then "" else phoneNumber0
        let d := fmt.format "+"
        ({ w2 with accumulated := "+", displayText := d, caretOffset := d.length }, pn)
    else (w1, phoneNumber0)
  let w3 := step2.1
  let phoneNumber := step2.2
  let caretPosition :=
    if w3.displayText.length = w3.caretOffset then w3.caretOffset + 1 else w3.caretOffset
  let accum := w3.accumulated ++ phoneNumber
  let newText := fmt.format accum
  let w4 := { w3 with accumulated := accum, displayText := newText,
                      caretOffset := min caretPosition newText.length,
                      hostValue := (fmt.numberValue accum).getD "" }
  decorateInputField w4 (fmt.country accum)

/-- Function `handleInput` (source lines 104-112), composed with the DOM
edit that precedes it: the browser has already set the edit-field text to
`raw` and the selection offset to `caret` when the handler runs.  If the
text is empty the handler only sets `isPristine`; otherwise it calls
`updateInputField` with the new text. -/
def handleInput (cfg : Config) (fmt : Formatter) (w : Widget)
    (raw : String) (caret : Nat) : Widget :=
  let w := { w with displayText := raw, caretOffset := caret }
  if raw = "" then { w with isPristine := true }
  else updateInputField cfg fmt w raw

/-- Method `closeInternationalSelector` (source lines 232-236): clears
`isOpen` and invokes the stored cleanup handle if one is set.  The handle
is *not* cleared after the call. -/
def closeSel (w : Widget) : Widget :=
  { w with isOpen := false,
           released := match w.cleanup with
                       | some t => t :: w.released
                       | none => w.released }

/-- Method `openInternationalSelector` (source lines 215-230): stores a
fresh `autoUpdate` cleanup handle (overwriting any previous one without
invoking it), opens the selector, resets `isPristine` to `true`,
deselects all entries, then highlights the catalog entry of
`asYouType.getCountry()` when that region is present in the catalog. -/
def openSel (cfg : Config) (fmt : Formatter) (w : Widget) : Widget :=
  { w with cleanup := some w.acquired, acquired := w.acquired + 1,
           isOpen := true, isPristine := true,
           highlighted :=
             (fmt.country w.accumulated).bind
               (fun c => cfg.catalog.findIdx? (fun e => e.1 = c)) }

/-- Method `setInternationalCode` (source lines 238-247): decorates the
flag (twice in the source), rewrites the edit field to the concatenation
of "+", the calling code and the national number, where the national
number is the `nationalNumber` of the current parse, or empty when there
is none, and the deferred `setCaretToEnd()` puts the caret at the end of
that text.  The formatter and the host value are not touched. -/
def setInternationalCode (fmt : Formatter) (w : Widget)
    (countryCode callingCode : String) : Widget :=
  let w := decorateInputField w (some countryCode)
  let nationalNumber := (fmt.natNumber w.accumulated).getD ""
  let w := decorateInputField w (some countryCode)
  let t := "+" ++ callingCode ++ nationalNumber
  { w with displayText := t, caretOffset := t.length }

/-- The `ArrowDown` selection move (source lines 179-188): the next sibling of
the selected entry, else the first entry; no entry at all leaves the
selection unchanged. -/
def highlightNext (n : Nat) (h : Option Nat) : Option Nat :=
  if n = 0 then h
  else
    match h with
    | none => some 0
    | some k => if k + 1 < n then some (k + 1) else some 0

/-- The `ArrowUp` selection move (source lines 169-178): the previous sibling
of the selected entry, else the last entry; no entry at all leaves the
selection unchanged. -/
def highlightPrevious (n : Nat) (h : Option Nat) : Option Nat :=
  if n = 0 then h
  else
    match h with
    | none => some (n - 1)
    | some k => if k = 0 then some (n - 1) else some (k - 1)

/-- The keys the `handleKeypress` switch distinguishes. -/
inductive Key where
  | enter
  | escape
  | arrowUp
  | arrowDown
  | char (c : Char)
  | other
  deriving Repr, DecidableEq

/-- The characters of the digit case of the switch (source line 189). -/
def digitKeys : List Char := ['+', '0', '1', '2', '3', '4', '5', '6', '7', '8', '9']

/-- Method `handleKeypress` (source lines 147-198).  Returns immediately when the
selector is closed.  `Enter` commits the highlighted entry (close, then
`setInternationalCode`); `Escape` closes; the arrows move the highlight;
a digit or "+" closes, focuses the edit field and forwards the single key
to `updateInputField`. -/
def handleKeypress (cfg : Config) (fmt : Formatter) (w : Widget) (k : Key) : Widget :=
  if ¬ w.isOpen then w
  else
    match k with
    | .enter =>
        match w.highlighted with
        | some i =>
            match cfg.catalog[i]? with
            | some e => setInternationalCode fmt (closeSel w) e.1 e.2
            | none => w
        | none => w
    | .escape => closeSel w
    | .arrowUp => { w with highlighted := highlightPrevious cfg.catalog.length w.highlighted }
    | .arrowDown => { w with highlighted := highlightNext cfg.catalog.length w.highlighted }
    | .char c =>
        if c ∈ digitKeys then
          updateInputField cfg fmt (closeSel w) (String.mk [c])
        else w
    | .other => w

/-- Where a document click lands, as the walk of `handleClick` up the ancestor
chain classifies it: on the opener, on a catalog row of the selector, or
anywhere else. -/
inductive ClickTarget where
  | opener
  | entryRow (i : Nat)
  | outside
  deriving Repr, DecidableEq

/-- Method `handleClick` (source lines 125-145): a click on the opener opens the
selector and returns; a click on catalog row `i` commits the codes of that row
and falls through to `closeInternationalSelector()`; any other click runs
`closeInternationalSelector()` unconditionally. -/
def handleClick (cfg : Config) (fmt : Formatter) (w : Widget) (t : ClickTarget) : Widget :=
  match t with
  | .opener => openSel cfg fmt w
  | .entryRow i =>
      match cfg.catalog[i]? with
      | some e => closeSel (setInternationalCode fmt w e.1 e.2)
      | none => closeSel w
  | .outside => closeSel w

/-- Runs a list of document clicks through `handleClick`, left to right. -/
def runClicks (cfg : Config) (fmt : Formatter) (w : Widget) : List ClickTarget → Widget
  | [] => w
  | t :: ts => runClicks cfg fmt (handleClick cfg fmt w t) ts

/-- The value-loading tail of the constructor (source lines 49-53): when
the host field has a non-empty value it is fed to the fresh formatter, the
edit field shows the formatted text, the host value is replaced by
`getNumberValue() ?? element.value` (the original raw text is kept when no
canonical number exists), and the flag is decorated. -/
def initField (fmt : Formatter) (value : String) : Widget :=
  if value = "" then emptyWidget
  else
    let w := { emptyWidget with displayText := fmt.format value, accumulated := value,
                                hostValue := (fmt.numberValue value).getD value }
    decorateInputField w (fmt.country value)

/-- Method `checkValidity` (source lines 333-344): the boolean result together
with the message passed to `setCustomValidity`, if any was set. -/
def checkValidity (cfg : Config) (fmt : Formatter) (w : Widget) : Bool × Option String :=
  if fmt.valid w.accumulated then
    if cfg.mobileOnly ∧ fmt.numType w.accumulated ≠ some "MOBILE" then
      (false, some "Invalid mobile number")
    else (true, none)
  else (false, some "Invalid phone number")

/-! Concrete collaborator instances used to evaluate the model on
specific inputs.  Each is one admissible behaviour of the external
`AsYouType` contract. -/

/-- A transparent formatter: the display string is the accumulated input
itself, the number value is the accumulated input, and the detected
country is constantly "CH". -/
def fmtId : Formatter :=
  { format := fun s => s, numberValue := fun s => some s,
    country := fun _ => some "CH", natNumber := fun _ => none,
    valid := fun _ => false, numType := fun _ => none }

/-- A formatter that renders the digit sequence "2124" the way
libphonenumber renders a partial US national number, `(212) 4`:
one keystroke makes the display two characters longer. -/
def fmtSep : Formatter :=
  { format := fun s => if s = "2124" then "(212) 4" else s,
    numberValue := fun _ => none, country := fun _ => none,
    natNumber := fun _ => none, valid := fun _ => false,
    numType := fun _ => none }

/-- A formatter whose parse of the accumulated input "X" has national
number "123", and whose display prepends "F" to the accumulated input. -/
def fmtNat : Formatter :=
  { format := fun s => "F" ++ s, numberValue := fun s => some s,
    country := fun _ => none,
    natNumber := fun s => if s = "X" then some "123" else none,
    valid := fun _ => false, numType := fun _ => none }

/-- A formatter that accepts everything as a valid fixed-line number. -/
def fmtFixed : Formatter :=
  { format := fun s => s, numberValue := fun s => some s,
    country := fun _ => none, natNumber := fun _ => none,
    valid := fun _ => true, numType := fun _ => some "FIXED_LINE" }

/-- Configuration with no default country and an empty catalog. -/
def cfgNone : Config :=
  { defaultCountryCode := none, mobileOnly := false, catalog := [] }

/-- Configuration with default country "US". -/
def cfgUS : Config :=
  { defaultCountryCode := some "US", mobileOnly := false, catalog := [] }

/-- Configuration with no default country and a one-entry catalog. -/
def cfgDE : Config :=
  { defaultCountryCode := none, mobileOnly := false, catalog := [("DE", "49")] }

/-- Configuration with no default country and a two-entry catalog. -/
def cfgTwo : Config :=
  { defaultCountryCode := none, mobileOnly := false,
    catalog := [("AT", "43"), ("CH", "41")] }

/-- Configuration with the mobile-only constraint enabled. -/
def cfgMobile : Config :=
  { defaultCountryCode := none, mobileOnly := true, catalog := [] }

/-- A widget state with the selector open and nothing highlighted. -/
def wOpen : Widget := { emptyWidget with isOpen := true }

/-- A widget state with the selector open over a one-entry catalog, entry
0 highlighted, accumulated formatter input "X" and host value "old". -/
def wOpenX : Widget :=
  { emptyWidget with isOpen := true, highlighted := some 0,
                     accumulated := "X", hostValue := "old", displayText := "FX" }

/-! ## Theorems about the claims -/

/-- C3 (amended): an edit whose raw text is empty sets `isPristine` back
to `true` and leaves the display text empty, but the host value, the flag
decoration and the formatter state keep their previous values — they are
not cleared. -/
theorem C3_empty_edit_amended (cfg : Config) (fmt : Formatter) (w : Widget) (caret : Nat) :
    (handleInput cfg fmt w "" caret).isPristine = true
    ∧ (handleInput cfg fmt w "" caret).displayText = ""
    ∧ (handleInput cfg fmt w "" caret).hostValue = w.hostValue
    ∧ (handleInput cfg fmt w "" caret).region = w.region
    ∧ (handleInput cfg fmt w "" caret).accumulated = w.accumulated := by
  simp [handleInput]

/-- C3 (counterexample): after the edit "+123" the host value is "+123"
and the detected region is "CH"; the empty edit that follows sets
`isPristine` but leaves the host value at "+123" (not empty) and the
region decoration in place (not none), contrary to the claim. -/
theorem C3_empty_edit_counterexample :
    (handleInput cfgNone fmtId (handleInput cfgNone fmtId emptyWidget "+123" 4) "" 0).isPristine = true
    ∧ (handleInput cfgNone fmtId (handleInput cfgNone fmtId emptyWidget "+123" 4) "" 0).hostValue = "+123"
    ∧ ¬ (handleInput cfgNone fmtId (handleInput cfgNone fmtId emptyWidget "+123" 4) "" 0).hostValue = ""
    ∧ (handleInput cfgNone fmtId (handleInput cfgNone fmtId emptyWidget "+123" 4) "" 0).region = some "CH" := by
  decide

/-- C4: `checkValidity` returns true iff the formatter reports the number
valid and, when the mobile-only flag is configured, its classified type is
exactly MOBILE; when it returns false, the mobile-specific message is
attached when the number is valid but fails the mobile constraint, and the
generic phone message otherwise; on success no message is attached. -/
theorem C4_checkValidity_spec (cfg : Config) (fmt : Formatter) (w : Widget) :
    ((checkValidity cfg fmt w).1 = true ↔
      (fmt.valid w.accumulated = true ∧
        (cfg.mobileOnly = true → fmt.numType w.accumulated = some "MOBILE")))
    ∧ (fmt.valid w.accumulated = false →
        (checkValidity cfg fmt w).2 = some "Invalid phone number")
    ∧ (fmt.valid w.accumulated = true → (checkValidity cfg fmt w).1 = false →
        (checkValidity cfg fmt w).2 = some "Invalid mobile number")
    ∧ ((checkValidity cfg fmt w).1 = true → (checkValidity cfg fmt w).2 = none) := by
  unfold checkValidity
  by_cases hv : fmt.valid w.accumulated = true
  · by_cases hm : cfg.mobileOnly = true ∧ fmt.numType w.accumulated ≠ some "MOBILE"
    · simp [hv, hm]
    · simp [hv, hm]
      tauto
  · simp [Bool.not_eq_true] at hv
    simp [hv]

/-- C4 witness: concrete failing evaluations obtained through the
specification theorem. -/
theorem C4_checkValidity_spec_witness :
    (checkValidity cfgMobile fmtId emptyWidget).2 = some "Invalid phone number"
    ∧ (checkValidity cfgMobile fmtFixed emptyWidget).2 = some "Invalid mobile number" :=
  ⟨(C4_checkValidity_spec cfgMobile fmtId emptyWidget).2.1 (by decide),
   (C4_checkValidity_spec cfgMobile fmtFixed emptyWidget).2.2.1 (by decide) (by decide)⟩

/-- Appending to the empty string is the identity. -/
theorem empty_append_str (s : String) : "" ++ s = s := by
  cases s
  rfl

/-- C1 (counterexample): with no default region and a pristine field, an
edit whose text starts with "0" is discarded wholly — only the
auto-inserted "+" reaches the formatter.  Feeding "0123456789" therefore
shows "+" while feeding "+123456789" shows the formatted full number:
display text and host value of the two runs differ, contrary to the
claim that the digits after the leading "0" are kept. -/
theorem C1_pristine_zero_counterexample :
    (handleInput cfgNone fmtId emptyWidget "0123456789" 10).displayText = "+"
    ∧ (handleInput cfgNone fmtId emptyWidget "+123456789" 10).displayText = "+123456789"
    ∧ ¬ (handleInput cfgNone fmtId emptyWidget "0123456789" 10).displayText
        = (handleInput cfgNone fmtId emptyWidget "+123456789" 10).displayText
    ∧ ¬ (handleInput cfgNone fmtId emptyWidget "0123456789" 10).hostValue
        = (handleInput cfgNone fmtId emptyWidget "+123456789" 10).hostValue := by
  decide

/-- C1 (amended): while no default region is configured and the field is
pristine, an edit not starting with "+" clears the pristine flag exactly
once and seeds international mode: a text starting with "0" is dropped in
its entirety (the formatter receives just "+"), and any other text gets
"+" prepended; the display text is the formatted transformed text and
the host value its canonical value. -/
theorem C1_pristine_transition_amended (cfg : Config) (fmt : Formatter)
    (w : Widget) (raw : String) (caret : Nat)
    (hd : cfg.defaultCountryCode = none) (hp : w.isPristine = true)
    (hraw : raw ≠ "") (hplus : beginsWith raw "+" = false) :
    (handleInput cfg fmt w raw caret).isPristine = false
    ∧ (handleInput cfg fmt w raw caret).accumulated
        = "+" ++ (if beginsWith raw "0" then "" else raw)
    ∧ (handleInput cfg fmt w raw caret).displayText
        = fmt.format ((handleInput cfg fmt w raw caret).accumulated)
    ∧ (handleInput cfg fmt w raw caret).hostValue
        = (fmt.numberValue ((handleInput cfg fmt w raw caret).accumulated)).getD "" := by
  by_cases h0 : beginsWith raw "0" = true
  · simp [handleInput, hraw, updateInputField, decorateInputField, hd, hp, hplus, h0]
  · simp [handleInput, hraw, updateInputField, decorateInputField, hd, hp, hplus, h0]

/-- C1 witness: the amended theorem applied to the pristine edit "0987". -/
theorem C1_pristine_transition_amended_witness :
    (handleInput cfgNone fmtId emptyWidget "0987" 4).isPristine = false
    ∧ (handleInput cfgNone fmtId emptyWidget "0987" 4).accumulated
        = "+" ++ (if beginsWith "0987" "0" then "" else "0987")
    ∧ (handleInput cfgNone fmtId emptyWidget "0987" 4).displayText
        = fmtId.format ((handleInput cfgNone fmtId emptyWidget "0987" 4).accumulated)
    ∧ (handleInput cfgNone fmtId emptyWidget "0987" 4).hostValue
        = (fmtId.numberValue ((handleInput cfgNone fmtId emptyWidget "0987" 4).accumulated)).getD "" :=
  C1_pristine_transition_amended cfgNone fmtId emptyWidget "0987" 4 rfl rfl
    (by decide) (by decide)

/-- C2 (counterexample): with default region "US", feeding the fourth
digit of "2124" formats the display to "(212) 4", which is two characters
longer than the pre-edit text; the caret, biased right by one and
clamped, lands at offset 5 — not at the end of the new text as the claim
asserts for a caret that was at end-of-text. -/
theorem C2_caret_counterexample :
    (handleInput cfgUS fmtSep emptyWidget "2124" 4).displayText = "(212) 4"
    ∧ (handleInput cfgUS fmtSep emptyWidget "2124" 4).caretOffset = 5
    ∧ ¬ (handleInput cfgUS fmtSep emptyWidget "2124" 4).caretOffset
        = (handleInput cfgUS fmtSep emptyWidget "2124" 4).displayText.length := by
  decide

/-- C2 (amended): for every edit, the caret offset is recomputed from the
field text and selection offset at formatting time.  For an edit that
does not trigger the pristine rewrite (no default region configured,
field pristine, text not starting with "+"), these are the pre-edit text
and selection offset; an edit that does trigger it has the field text
first replaced by the formatted "+" with the selection at its end.  The
offset is incremented by one exactly when it equals the length of that
field text, then clamped to the new text length.  Consequently a caret
that was at end-of-text stays at end-of-text whenever the pristine
rewrite does not fire and the formatted text is at most one character
longer than the pre-edit text (such as one inserted separator). -/
theorem C2_caret_amended (cfg : Config) (fmt : Formatter) (w : Widget)
    (raw : String) (caret : Nat) (hraw : raw ≠ "") :
    ((¬ (cfg.defaultCountryCode = none ∧ w.isPristine = true)
        ∨ beginsWith raw "+" = true) →
      (handleInput cfg fmt w raw caret).caretOffset
        = min (if raw.length = caret then caret + 1 else caret) (fmt.format raw).length)
    ∧ (cfg.defaultCountryCode = none → w.isPristine = true →
        beginsWith raw "+" = false →
      (handleInput cfg fmt w raw caret).caretOffset
        = min ((fmt.format "+").length + 1)
            (fmt.format ("+" ++ (if beginsWith raw "0" then "" else raw))).length)
    ∧ ((¬ (cfg.defaultCountryCode = none ∧ w.isPristine = true)
        ∨ beginsWith raw "+" = true) →
        caret = raw.length → (fmt.format raw).length ≤ raw.length + 1 →
        (handleInput cfg fmt w raw caret).caretOffset
          = (handleInput cfg fmt w raw caret).displayText.length) := by
  have hacc : ("" : String) ++ raw = raw := empty_append_str raw
  have hmain : (¬ (cfg.defaultCountryCode = none ∧ w.isPristine = true)
        ∨ beginsWith raw "+" = true) →
      (handleInput cfg fmt w raw caret).caretOffset
        = min (if raw.length = caret then caret + 1 else caret)
            (fmt.format raw).length := by
    intro h
    rcases h with h | h
    · simp [handleInput, hraw, updateInputField, decorateInputField, h, hacc]
    · by_cases hp : cfg.defaultCountryCode = none ∧ w.isPristine = true
      · simp [handleInput, hraw, updateInputField, decorateInputField, hp, h, hacc]
      · simp [handleInput, hraw, updateInputField, decorateInputField, hp, hacc]
  refine ⟨hmain, ?_, ?_⟩
  · intro hd hp hplus
    simp [handleInput, hraw, updateInputField, decorateInputField, hd, hp, hplus]
  · intro h hc hlen
    rw [hmain h]
    have hdisp : (handleInput cfg fmt w raw caret).displayText
        = fmt.format raw := by
      rcases h with h | h
      · simp [handleInput, hraw, updateInputField, decorateInputField, h, hacc]
      · by_cases hp : cfg.defaultCountryCode = none ∧ w.isPristine = true
        · simp [handleInput, hraw, updateInputField, decorateInputField, hp, h, hacc]
        · simp [handleInput, hraw, updateInputField, decorateInputField, hp, hacc]
    rw [hdisp, hc, if_pos rfl]
    omega

/-- C2 witness: the amended theorem applied to the non-pristine edit "12"
with the caret at offset 1, and to the pristine paste "987" with the
caret at offset 3, where the caret ends at offset 2 of the four-character
text "+987". -/
theorem C2_caret_amended_witness :
    (handleInput cfgUS fmtSep emptyWidget "12" 1).caretOffset
      = min (if ("12" : String).length = 1 then 1 + 1 else 1) (fmtSep.format "12").length
    ∧ (handleInput cfgNone fmtId emptyWidget "987" 3).caretOffset
      = min ((fmtId.format "+").length + 1)
          (fmtId.format ("+" ++ (if beginsWith "987" "0" then "" else "987"))).length :=
  ⟨(C2_caret_amended cfgUS fmtSep emptyWidget "12" 1 (by decide)).1 (Or.inl (by decide)),
   (C2_caret_amended cfgNone fmtId emptyWidget "987" 3 (by decide)).2.1 rfl rfl (by decide)⟩

/-- Fields that `updateInputField` never touches, and the relation it
always establishes between the host value and the accumulated input. -/
theorem updateInputField_fields (cfg : Config) (fmt : Formatter)
    (w : Widget) (raw : String) :
    (updateInputField cfg fmt w raw).isOpen = w.isOpen
    ∧ (updateInputField cfg fmt w raw).highlighted = w.highlighted
    ∧ (updateInputField cfg fmt w raw).cleanup = w.cleanup
    ∧ (updateInputField cfg fmt w raw).acquired = w.acquired
    ∧ (updateInputField cfg fmt w raw).released = w.released
    ∧ (updateInputField cfg fmt w raw).hostValue
        = (fmt.numberValue ((updateInputField cfg fmt w raw).accumulated)).getD "" := by
  by_cases h : cfg.defaultCountryCode = none ∧ w.isPristine = true
  · by_cases hb : beginsWith raw "+" = true
    · simp [updateInputField, decorateInputField, h, hb]
    · simp [updateInputField, decorateInputField, h, hb]
  · simp [updateInputField, decorateInputField, h]

/-- C10: at construction with a non-empty initial host value that the
formatter cannot canonicalize, the host value is left at the original raw
text and is in particular non-empty; by contrast the per-edit path writes
the empty string to the host field whenever the canonical value is none. -/
theorem C10_init_keeps_raw (cfg : Config) (fmt : Formatter) (v : String)
    (w : Widget) (raw : String)
    (hv : v ≠ "") (hn : fmt.numberValue v = none)
    (hn2 : fmt.numberValue ((updateInputField cfg fmt w raw).accumulated) = none) :
    (initField fmt v).hostValue = v
    ∧ (initField fmt v).hostValue ≠ ""
    ∧ (updateInputField cfg fmt w raw).hostValue = "" := by
  refine ⟨?_, ?_, ?_⟩
  · simp [initField, hv, decorateInputField, hn]
  · simp [initField, hv, decorateInputField, hn]
  · rw [(updateInputField_fields cfg fmt w raw).2.2.2.2.2, hn2]
    rfl

/-- C10 witness: the theorem applied to the unparseable initial value
"abc" and the edit "5". -/
theorem C10_init_keeps_raw_witness :
    (initField fmtSep "abc").hostValue = "abc"
    ∧ (initField fmtSep "abc").hostValue ≠ ""
    ∧ (updateInputField cfgUS fmtSep emptyWidget "5").hostValue = "" :=
  C10_init_keeps_raw cfgUS fmtSep "abc" emptyWidget "5" (by decide) rfl rfl

/-- C8: while the picker is open, a keypress of "+" or a digit closes the
selector without committing (the flag decoration and the display text are
untouched by the close) and forwards exactly that one character into the
input editing engine; the resulting state is closed. -/
theorem C8_digit_forwarding (cfg : Config) (fmt : Formatter) (w : Widget)
    (c : Char) (hopen : w.isOpen = true) (hc : c ∈ digitKeys) :
    handleKeypress cfg fmt w (Key.char c)
      = updateInputField cfg fmt (closeSel w) (String.mk [c])
    ∧ (closeSel w).isOpen = false
    ∧ (closeSel w).region = w.region
    ∧ (closeSel w).displayText = w.displayText
    ∧ (closeSel w).hostValue = w.hostValue
    ∧ (handleKeypress cfg fmt w (Key.char c)).isOpen = false := by
  have he : handleKeypress cfg fmt w (Key.char c)
      = updateInputField cfg fmt (closeSel w) (String.mk [c]) := by
    simp [handleKeypress, hopen, hc]
  refine ⟨he, rfl, rfl, rfl, rfl, ?_⟩
  rw [he, (updateInputField_fields cfg fmt (closeSel w) (String.mk [c])).1]
  rfl

/-- C8 witness: the theorem applied to the key "5" on an open selector. -/
theorem C8_digit_forwarding_witness :
    handleKeypress cfgTwo fmtId { emptyWidget with isOpen := true } (Key.char '5')
      = updateInputField cfgTwo fmtId (closeSel { emptyWidget with isOpen := true })
          (String.mk ['5'])
    ∧ (closeSel { emptyWidget with isOpen := true }).isOpen = false
    ∧ (closeSel { emptyWidget with isOpen := true }).region
        = ({ emptyWidget with isOpen := true } : Widget).region
    ∧ (closeSel { emptyWidget with isOpen := true }).displayText
        = ({ emptyWidget with isOpen := true } : Widget).displayText
    ∧ (closeSel { emptyWidget with isOpen := true }).hostValue
        = ({ emptyWidget with isOpen := true } : Widget).hostValue
    ∧ (handleKeypress cfgTwo fmtId { emptyWidget with isOpen := true } (Key.char '5')).isOpen
        = false :=
  C8_digit_forwarding cfgTwo fmtId { emptyWidget with isOpen := true } '5' rfl (by decide)

/-- On a one-character string, `beginsWith` with "+" tests that single
character. -/
theorem beginsWith_single_plus (c : Char) :
    beginsWith (String.mk [c]) "+" = ('+' == c) := by
  have h : "+".data = ['+'] := rfl
  simp [beginsWith, h, List.isPrefixOf]

/-- On a one-character string, `beginsWith` with "0" tests that single
character. -/
theorem beginsWith_single_zero (c : Char) :
    beginsWith (String.mk [c]) "0" = ('0' == c) := by
  have h : "0".data = ['0'] := rfl
  simp [beginsWith, h, List.isPrefixOf]

/-- C9: opening the country picker sets the pristine flag back to `true`
whatever the field contains; hence with no default region, a digit key
typed while the picker is open (which closes it and forwards the digit)
runs the one-time pristine transformation again — the digit is fed as
"+digit" (or as just "+" for the digit "0"), not appended as a plain
digit. -/
theorem C9_open_rearms_pristine (cfg : Config) (fmt : Formatter)
    (w : Widget) (c : Char)
    (hd : cfg.defaultCountryCode = none) (hc : c ∈ digitKeys) (hplus : c ≠ '+') :
    (openSel cfg fmt w).isPristine = true
    ∧ (handleKeypress cfg fmt (openSel cfg fmt w) (Key.char c)).isPristine = false
    ∧ (handleKeypress cfg fmt (openSel cfg fmt w) (Key.char c)).accumulated
        = "+" ++ (if c = '0' then "" else String.mk [c])
    ∧ (handleKeypress cfg fmt (openSel cfg fmt w) (Key.char c)).displayText
        = fmt.format ((handleKeypress cfg fmt (openSel cfg fmt w) (Key.char c)).accumulated) := by
  have hopen : (openSel cfg fmt w).isOpen = true := rfl
  have hkey : handleKeypress cfg fmt (openSel cfg fmt w) (Key.char c)
      = updateInputField cfg fmt (closeSel (openSel cfg fmt w)) (String.mk [c]) := by
    simp [handleKeypress, hopen, hc]
  have hb : beginsWith (String.mk [c]) "+" = false := by
    rw [beginsWith_single_plus]
    exact beq_eq_false_iff_ne.mpr (fun h => hplus h.symm)
  refine ⟨rfl, ?_⟩
  rw [hkey]
  by_cases h0 : c = '0'
  · subst h0
    have hb0 : beginsWith (String.mk ['0']) "0" = true := by decide
    have happ : ("+" : String) ++ "" = "+" := by decide
    simp [updateInputField, decorateInputField, closeSel, openSel, hd, hb, hb0, happ]
  · have hb0 : beginsWith (String.mk [c]) "0" = false := by
      rw [beginsWith_single_zero]
      exact beq_eq_false_iff_ne.mpr (fun h => h0 h.symm)
    simp [updateInputField, decorateInputField, closeSel, openSel, hd, hb, hb0, h0]

/-- C9 witness: the theorem applied to the digit "5" with no default
region. -/
theorem C9_open_rearms_pristine_witness :
    (openSel cfgNone fmtId emptyWidget).isPristine = true
    ∧ (handleKeypress cfgNone fmtId (openSel cfgNone fmtId emptyWidget) (Key.char '5')).isPristine = false
    ∧ (handleKeypress cfgNone fmtId (openSel cfgNone fmtId emptyWidget) (Key.char '5')).accumulated
        = "+" ++ (if '5' = '0' then "" else String.mk ['5'])
    ∧ (handleKeypress cfgNone fmtId (openSel cfgNone fmtId emptyWidget) (Key.char '5')).displayText
        = fmtId.format ((handleKeypress cfgNone fmtId (openSel cfgNone fmtId emptyWidget) (Key.char '5')).accumulated) :=
  C9_open_rearms_pristine cfgNone fmtId emptyWidget '5' rfl (by decide) (by decide)

/-- C6 (counterexample): committing entry ("DE", "49") from `wOpenX`
rewrites the display to the raw concatenation "+49123" and leaves the
host value at "old": the input editing engine is *not* re-entered — had
it been, the display would be the formatted text `F+49123` and the host
value the canonical value "+49123". -/
theorem C6_commit_counterexample :
    (handleKeypress cfgDE fmtNat wOpenX Key.enter).isOpen = false
    ∧ (handleKeypress cfgDE fmtNat wOpenX Key.enter).displayText = "+49123"
    ∧ (handleKeypress cfgDE fmtNat wOpenX Key.enter).hostValue = "old"
    ∧ ¬ (handleKeypress cfgDE fmtNat wOpenX Key.enter).displayText
        = fmtNat.format "+49123"
    ∧ ¬ (handleKeypress cfgDE fmtNat wOpenX Key.enter).hostValue
        = (fmtNat.numberValue "+49123").getD "" := by
  decide

/-- C6 (amended): committing a highlighted entry closes the picker,
rewrites the display text to "+" followed by the calling code and the
national significant number of the current parse (empty when none), and
places the caret at the end of that text; the formatter state, the host
value and the pristine flag are untouched — the input editing engine is
re-entered only on the next user edit. -/
theorem C6_commit_amended (cfg : Config) (fmt : Formatter) (w : Widget)
    (i : Nat) (rc cc : String)
    (hopen : w.isOpen = true) (hh : w.highlighted = some i)
    (hcat : cfg.catalog[i]? = some (rc, cc)) :
    (handleKeypress cfg fmt w Key.enter).isOpen = false
    ∧ (handleKeypress cfg fmt w Key.enter).displayText
        = "+" ++ cc ++ ((fmt.natNumber w.accumulated).getD "")
    ∧ (handleKeypress cfg fmt w Key.enter).caretOffset
        = (handleKeypress cfg fmt w Key.enter).displayText.length
    ∧ (handleKeypress cfg fmt w Key.enter).hostValue = w.hostValue
    ∧ (handleKeypress cfg fmt w Key.enter).accumulated = w.accumulated
    ∧ (handleKeypress cfg fmt w Key.enter).isPristine = w.isPristine
    ∧ (handleKeypress cfg fmt w Key.enter).region = some rc := by
  simp [handleKeypress, hopen, hh, hcat, setInternationalCode, closeSel, decorateInputField]

/-- C6 witness: the amended theorem applied to `wOpenX` and its catalog
entry. -/
theorem C6_commit_amended_witness :
    (handleKeypress cfgDE fmtNat wOpenX Key.enter).isOpen = false
    ∧ (handleKeypress cfgDE fmtNat wOpenX Key.enter).displayText
        = "+" ++ "49" ++ ((fmtNat.natNumber wOpenX.accumulated).getD "")
    ∧ (handleKeypress cfgDE fmtNat wOpenX Key.enter).caretOffset
        = (handleKeypress cfgDE fmtNat wOpenX Key.enter).displayText.length
    ∧ (handleKeypress cfgDE fmtNat wOpenX Key.enter).hostValue = wOpenX.hostValue
    ∧ (handleKeypress cfgDE fmtNat wOpenX Key.enter).accumulated = wOpenX.accumulated
    ∧ (handleKeypress cfgDE fmtNat wOpenX Key.enter).isPristine = wOpenX.isPristine
    ∧ (handleKeypress cfgDE fmtNat wOpenX Key.enter).region = some "DE" :=
  C6_commit_amended cfgDE fmtNat wOpenX 0 "DE" "49" rfl rfl rfl

/-- The successor modulo `n`, phrased the way `highlightNext` computes
it. -/
theorem mod_succ_step (j n : Nat) (hn : 0 < n) :
    (j + 1) % n = if j % n + 1 < n then j % n + 1 else 0 := by
  have h1 : j % n < n := Nat.mod_lt _ hn
  by_cases h : j % n + 1 < n
  · rw [if_pos h]
    have h2 : 1 % n = 1 := Nat.mod_eq_of_lt (by omega)
    rw [Nat.add_mod, h2]
    exact Nat.mod_eq_of_lt h
  · rw [if_neg h]
    have h3 : j % n + 1 = n := by omega
    by_cases hn1 : n = 1
    · subst hn1
      simp [Nat.mod_one]
    · have h2 : 1 % n = 1 := Nat.mod_eq_of_lt (by omega)
      rw [Nat.add_mod, h2, h3, Nat.mod_self]

/-- Iterating `highlightNext` from the first entry cycles modulo the
catalog size. -/
theorem highlightNext_iterate (n : Nat) (hn : 0 < n) :
    ∀ j : Nat, (highlightNext n)^[j] (some 0) = some (j % n) := by
  intro j
  induction j with
  | zero => simp [Nat.zero_mod]
  | succ j ih =>
      have hn0 : ¬ n = 0 := by omega
      rw [Function.iterate_succ_apply', ih]
      simp only [highlightNext, hn0, if_false]
      rw [mod_succ_step j n hn]
      split <;> rfl

/-- ArrowDown on an open selector only replaces the highlight by its
`highlightNext` image. -/
theorem arrowDown_step (cfg : Config) (fmt : Formatter) (w : Widget)
    (h : w.isOpen = true) :
    handleKeypress cfg fmt w Key.arrowDown
      = { w with highlighted := highlightNext cfg.catalog.length w.highlighted } := by
  simp [handleKeypress, h]

/-- ArrowUp on an open selector only replaces the highlight by its
`highlightPrevious` image. -/
theorem arrowUp_step (cfg : Config) (fmt : Formatter) (w : Widget)
    (h : w.isOpen = true) :
    handleKeypress cfg fmt w Key.arrowUp
      = { w with highlighted := highlightPrevious cfg.catalog.length w.highlighted } := by
  simp [handleKeypress, h]

/-- Iterated ArrowDown on an open selector keeps it open and drives the
highlight through the iterates of `highlightNext`. -/
theorem arrowDown_iterate (cfg : Config) (fmt : Formatter) :
    ∀ (j : Nat) (w : Widget), w.isOpen = true →
      ((fun v => handleKeypress cfg fmt v Key.arrowDown)^[j] w).isOpen = true
      ∧ ((fun v => handleKeypress cfg fmt v Key.arrowDown)^[j] w).highlighted
          = (highlightNext cfg.catalog.length)^[j] w.highlighted := by
  intro j
  induction j with
  | zero => exact fun w hw => ⟨hw, rfl⟩
  | succ j ih =>
      intro w hw
      rw [Function.iterate_succ_apply, Function.iterate_succ_apply]
      have hstep := arrowDown_step cfg fmt w hw
      have hopen : (handleKeypress cfg fmt w Key.arrowDown).isOpen = true := by
        rw [hstep]
        exact hw
      have hrec := ih (handleKeypress cfg fmt w Key.arrowDown) hopen
      refine ⟨hrec.1, ?_⟩
      rw [hrec.2, hstep]

/-- C5 (counterexample): over the two-entry catalog of `cfgTwo`, pressing
ArrowDown twice starting from no highlight leaves the highlight on the
second (last) entry, not back on the first as the claim asserts for N
presses. -/
theorem C5_wraparound_counterexample :
    (handleKeypress cfgTwo fmtId (handleKeypress cfgTwo fmtId wOpen Key.arrowDown) Key.arrowDown).highlighted
      = some 1
    ∧ ¬ (handleKeypress cfgTwo fmtId (handleKeypress cfgTwo fmtId wOpen Key.arrowDown) Key.arrowDown).highlighted
        = some 0 := by
  decide

/-- C5 (amended): while the picker is open over a catalog of N entries,
ArrowDown and ArrowUp move the highlight to the next and previous entry
with wrap-around (after the last comes the first, before the first comes
the last); both are no-ops on an empty catalog; starting from no
highlight, N ArrowDown presses land on the *last* entry and N+1 presses
return to the first, while one ArrowUp after one ArrowDown lands on the
last entry. -/
theorem C5_highlight_amended (cfg : Config) (fmt : Formatter) :
    (∀ w : Widget, w.isOpen = true → cfg.catalog.length = 0 →
        (handleKeypress cfg fmt w Key.arrowDown).highlighted = w.highlighted
      ∧ (handleKeypress cfg fmt w Key.arrowUp).highlighted = w.highlighted)
    ∧ (∀ (w : Widget) (k : Nat), w.isOpen = true → w.highlighted = some k →
        k < cfg.catalog.length →
        (handleKeypress cfg fmt w Key.arrowDown).highlighted
          = some ((k + 1) % cfg.catalog.length)
      ∧ (handleKeypress cfg fmt w Key.arrowUp).highlighted
          = some ((k + cfg.catalog.length - 1) % cfg.catalog.length))
    ∧ (∀ w : Widget, w.isOpen = true → w.highlighted = none →
        0 < cfg.catalog.length →
        ((fun v => handleKeypress cfg fmt v Key.arrowDown)^[cfg.catalog.length] w).highlighted
          = some (cfg.catalog.length - 1)
      ∧ ((fun v => handleKeypress cfg fmt v Key.arrowDown)^[cfg.catalog.length + 1] w).highlighted
          = some 0
      ∧ (handleKeypress cfg fmt (handleKeypress cfg fmt w Key.arrowDown) Key.arrowUp).highlighted
          = some (cfg.catalog.length - 1)) := by
  refine ⟨?_, ?_, ?_⟩
  · intro w hw h0
    rw [arrowDown_step cfg fmt w hw, arrowUp_step cfg fmt w hw]
    simp [highlightNext, highlightPrevious, h0]
  · intro w k hw hk hlt
    have hn0 : ¬ cfg.catalog.length = 0 := by omega
    rw [arrowDown_step cfg fmt w hw, arrowUp_step cfg fmt w hw]
    constructor
    · show highlightNext cfg.catalog.length w.highlighted
        = some ((k + 1) % cfg.catalog.length)
      rw [hk]
      simp only [highlightNext, hn0, if_false]
      rw [mod_succ_step k cfg.catalog.length (by omega), Nat.mod_eq_of_lt hlt]
      split <;> rfl
    · show highlightPrevious cfg.catalog.length w.highlighted
        = some ((k + cfg.catalog.length - 1) % cfg.catalog.length)
      rw [hk]
      simp only [highlightPrevious, hn0, if_false]
      by_cases hz : k = 0
      · subst hz
        rw [if_pos rfl, Nat.mod_eq_of_lt (by omega)]
        simp
      · rw [if_neg hz]
        have h2 : k + cfg.catalog.length - 1 = (k - 1) + cfg.catalog.length := by omega
        rw [h2, Nat.add_mod_right, Nat.mod_eq_of_lt (by omega)]
  · intro w hw hnone hn
    have hn0 : ¬ cfg.catalog.length = 0 := by omega
    have hfw := arrowDown_step cfg fmt w hw
    have hfw_open : (handleKeypress cfg fmt w Key.arrowDown).isOpen = true := by
      rw [hfw]
      exact hw
    have hfw_hl : (handleKeypress cfg fmt w Key.arrowDown).highlighted = some 0 := by
      rw [hfw]
      show highlightNext cfg.catalog.length w.highlighted = some 0
      rw [hnone]
      simp [highlightNext, hn0]
    refine ⟨?_, ?_, ?_⟩
    · obtain ⟨m, hm⟩ : ∃ m, cfg.catalog.length = m + 1 := ⟨cfg.catalog.length - 1, by omega⟩
      rw [hm, Function.iterate_succ_apply]
      rw [(arrowDown_iterate cfg fmt m (handleKeypress cfg fmt w Key.arrowDown) hfw_open).2]
      rw [hfw_hl, highlightNext_iterate cfg.catalog.length hn m]
      rw [hm, Nat.mod_eq_of_lt (by omega)]
      simp
    · rw [Function.iterate_succ_apply]
      rw [(arrowDown_iterate cfg fmt cfg.catalog.length
            (handleKeypress cfg fmt w Key.arrowDown) hfw_open).2]
      rw [hfw_hl, highlightNext_iterate cfg.catalog.length hn, Nat.mod_self]
    · rw [arrowUp_step cfg fmt (handleKeypress cfg fmt w Key.arrowDown) hfw_open]
      show highlightPrevious cfg.catalog.length
          (handleKeypress cfg fmt w Key.arrowDown).highlighted
        = some (cfg.catalog.length - 1)
      rw [hfw_hl]
      simp [highlightPrevious, hn0]

/-- C5 witness: the amended theorem applied to the two-entry catalog. -/
theorem C5_highlight_amended_witness :
    (handleKeypress cfgTwo fmtId { emptyWidget with isOpen := true, highlighted := some 0 } Key.arrowDown).highlighted
      = some ((0 + 1) % cfgTwo.catalog.length)
    ∧ ((fun v => handleKeypress cfgTwo fmtId v Key.arrowDown)^[cfgTwo.catalog.length] wOpen).highlighted
      = some (cfgTwo.catalog.length - 1) :=
  ⟨((C5_highlight_amended cfgTwo fmtId).2.1
      { emptyWidget with isOpen := true, highlighted := some 0 } 0 rfl rfl (by decide)).1,
   ((C5_highlight_amended cfgTwo fmtId).2.2 wOpen rfl rfl (by decide)).1⟩

/-- C7: the cleanup handle stored by `openInternationalSelector` is not
released exactly once per open.  Opening once and clicking outside twice
invokes the same stored cleanup on both clicks (released list `[0, 0]`);
clicking the opener twice and then outside overwrites the first handle
without invoking it, so after reaching the closed state subscription 0
was never released (released list `[1]` of the 2 acquired). -/
theorem C7_cleanup_double_release :
    (runClicks cfgDE fmtNat emptyWidget
        [ClickTarget.opener, ClickTarget.outside, ClickTarget.outside]).released = [0, 0]
    ∧ (runClicks cfgDE fmtNat emptyWidget
        [ClickTarget.opener, ClickTarget.outside, ClickTarget.outside]).acquired = 1
    ∧ (runClicks cfgDE fmtNat emptyWidget
        [ClickTarget.opener, ClickTarget.outside, ClickTarget.outside]).isOpen = false
    ∧ (runClicks cfgDE fmtNat emptyWidget
        [ClickTarget.opener, ClickTarget.opener, ClickTarget.outside]).released = [1]
    ∧ (runClicks cfgDE fmtNat emptyWidget
        [ClickTarget.opener, ClickTarget.opener, ClickTarget.outside]).acquired = 2
    ∧ (runClicks cfgDE fmtNat emptyWidget
        [ClickTarget.opener, ClickTarget.opener, ClickTarget.outside]).isOpen = false := by
  decide

end PhoneNumber
